import Mathlib

/-!
Verification of the fivedsecurity Compliance Detection & Confidence
Correlation Engine.

Shallow embedding of:
  * `FiveDVerifier` (src/unnamed/part_003): the five dimension analyzers,
    the temporal-decay heuristic and the `correlate5D` correlator;
  * `PatternDetector` (src/src/patterns/PatternDetector.js): rule lookup,
    exception classifiers, the rule-backed and heuristic checks, and
    `analyze`;
  * `CentralBrainSender.sendEvents` (src/src/analytics/CentralBrainClient.js):
    the bounded-retry telemetry send;
  * `PatternDetector.loadIncidentPatterns`: the remote-first /
    local-fallback registry load.

JavaScript numbers are modelled as `ℚ` (all arithmetic in the embedded
code is exact on small rationals; float rounding never comes within the
slack of any bound proved here).  `Math.round` is JS round-half-up,
i.e. `⌊x + 1/2⌋`.  A JS exception (`TypeError` from a property access on
`undefined`) is modelled as `Except.error ()`.
-/

namespace FiveD

/-- JS `Math.round`: round half toward positive infinity. -/
def jsRoundQ (q : ℚ) : ℚ := ((⌊q + 1/2⌋ : ℤ) : ℚ)

/-! ## Correlator (`correlate5D`, part_003 lines 809-860) -/

/-- One dimension analyzer's output (`DimensionResult`); the free-form
evidence payload is not carried (no claim inspects it). -/
structure DimensionResult where
  dimension : Nat
  name : String
  score : ℚ
  confidence : ℚ
  status : String
  details : String
deriving DecidableEq

/-- The `correlation` sub-record of the correlator's output. -/
structure CorrelationStats where
  avgScore : ℚ
  maxDrift : ℚ
  hasDrift : Bool
  epistemicBuffer : ℚ
deriving DecidableEq

/-- The correlator's output (`CorrelationResult`). -/
structure CorrelationResult where
  finalScore : ℚ
  status : String
  dimensions : List DimensionResult
  correlation : CorrelationStats
  godelCompliant : Bool
deriving DecidableEq

def EPISTEMIC_CAP : ℚ := 95

def EPISTEMIC_BUFFER : ℚ := 5

/-- JS `Math.max(...scores)` over the five scores. -/
def maxOf5 (a b c d e : ℚ) : ℚ := max a (max b (max c (max d e)))

/-- JS `Math.min(...scores)` over the five scores. -/
def minOf5 (a b c d e : ℚ) : ℚ := min a (min b (min c (min d e)))

/-- `correlate5D` (part_003 lines 809-860): average, max pairwise drift,
status classification and epistemic-capped rounded final score. -/
def correlate5D (d1 d2 d3 d4 d5 : DimensionResult) : CorrelationResult :=
  let scores : List ℚ := [d1.score, d2.score, d3.score, d4.score, d5.score]
  let avgScore : ℚ := scores.sum / 5
  let maxDrift : ℚ :=
    maxOf5 d1.score d2.score d3.score d4.score d5.score -
      minOf5 d1.score d2.score d3.score d4.score d5.score
  let hasDrift : Bool := decide (10 < maxDrift)
  let status : String :=
    if hasDrift then "DRIFT_DETECTED"
    else if avgScore < 85 then "INCONSISTENT"
    else "GODEL_COMPLIANT"
  let finalScore : ℚ := min avgScore EPISTEMIC_CAP
  { finalScore := jsRoundQ finalScore
    status := status
    dimensions := [d1, d2, d3, d4, d5]
    correlation :=
      { avgScore := jsRoundQ avgScore
        maxDrift := maxDrift
        hasDrift := hasDrift
        epistemicBuffer := EPISTEMIC_BUFFER }
    godelCompliant := !hasDrift && decide (85 ≤ avgScore) }

/-- Helper to build a dimension result carrying only a score, as in the
spec's synthetic score-vector property test. -/
def mkDim (n : Nat) (s : ℚ) : DimensionResult :=
  { dimension := n, name := "", score := s, confidence := 95
    status := "PASSED", details := "" }

/-! ## Dimension analyzers: emitted scores

Each analyzer's score is a function of the data it reads (corpus
contents, endpoint outcomes, evidence files); the I/O itself is
abstracted into those inputs, and each `catch` branch is an explicit
boolean input. -/

/-- Dimension 1 (`analyzeDimension1_Commits`, part_003 lines 126-149):
emits the constant placeholder score 95. -/
def analyzeDimension1Score : ℚ := 95

/-- Alignment-signal count in `validateCorpusAlignment` (part_003 line
261): number of `true` values among the four quality-check booleans
(the other fields of the `checks` object are `false`, `0` and a string
at that point, so only these four count). -/
def alignmentCount (has95 hasEpist hasEvid hasAsp : Bool) : Nat :=
  (if has95 then 1 else 0) + (if hasEpist then 1 else 0) +
    (if hasEvid then 1 else 0) + (if hasAsp then 1 else 0)

/-- `validateCorpusAlignment` score (part_003 lines 260-271): average of
the corpus-size ramp and the quality-check fraction, capped at 95. -/
def validateCorpusScore (exampleCount : Nat)
    (has95 hasEpist hasEvid hasAsp : Bool) : ℚ :=
  let corpusSizeScore : ℚ :=
    if 50 ≤ exampleCount then 95
    else jsRoundQ ((exampleCount : ℚ) / 50 * 95)
  let qualityScore : ℚ :=
    jsRoundQ ((alignmentCount has95 hasEpist hasEvid hasAsp : ℚ) / 4 * 95)
  min 95 (jsRoundQ ((corpusSizeScore + qualityScore) / 2))

/-- Dimension 2 emitted score (`analyzeDimension2_Corpus`, part_003
lines 155-203).  `corpusExists = false` and the catch branches
(`ioError`) emit 0; otherwise the aligned / raw score capped at the
epistemic cap. -/
def analyzeDimension2Score (corpusExists ioError : Bool)
    (exampleCount : Nat) (has95 hasEpist hasEvid hasAsp : Bool) : ℚ :=
  if ioError then 0
  else if !corpusExists then 0
  else
    let s := validateCorpusScore exampleCount has95 hasEpist hasEvid hasAsp
    let aligned : Bool := decide (90 ≤ s)
    min (if aligned then 95 else s) EPISTEMIC_CAP

/-- `fetchProductionEvidence` health score (part_003 lines 362-415):
fraction of the four fixed endpoints that returned HTTP 200, times 100,
rounded. -/
def healthScoreOf (e1 e2 e3 e4 : Bool) : ℚ :=
  let healthyCount : Nat := (if e1 then 1 else 0) + (if e2 then 1 else 0)
    + (if e3 then 1 else 0) + (if e4 then 1 else 0)
  jsRoundQ ((healthyCount : ℚ) / 4 * 100)

/-- One parsed VirusTotal evidence file (`checkVirusTotalEvidence`):
either marked skipped, a scan record with detection counts and a
CLEAN/other status tag, or an unparseable file (skipped in the loop). -/
inductive VtFile
  | skipped
  | scanRec (malicious suspicious : Nat) (statusClean : Bool)
  | unparseable

def vtIsScan : VtFile → Bool
  | .scanRec _ _ _ => true
  | _ => false

def vtMalicious : VtFile → Nat
  | .scanRec m _ _ => m
  | _ => 0

def vtSuspicious : VtFile → Nat
  | .scanRec _ s _ => s
  | _ => 0

def vtIsSkipped : VtFile → Bool
  | .skipped => true
  | _ => false

/-- `checkVirusTotalEvidence` security score (part_003 lines 420-525).
`ioError` models the catch branch (score 0); a missing directory or no
JSON files give the neutral 50; all-skipped evidence gives 75; all
clean gives 95; otherwise 95 minus a capped detection penalty. -/
def vtSecurityScore (dirExists ioError : Bool) (files : List VtFile) : ℚ :=
  if ioError then 0
  else if !dirExists then 50
  else if files.isEmpty then 50
  else
    let totalScanned : Nat := (files.filter vtIsScan).length
    let totalMalicious : Nat := (files.map vtMalicious).sum
    let totalSuspicious : Nat := (files.map vtSuspicious).sum
    let skippedScans : Nat := (files.filter vtIsSkipped).length
    if totalScanned = 0 then (if 0 < skippedScans then 75 else 50)
    else if totalMalicious = 0 then 95
    else
      let penaltyPercent : ℚ :=
        min 100 ((totalMalicious : ℚ) * 10 + (totalSuspicious : ℚ) * 5)
      max 0 (95 - penaltyPercent)

/-- `allClean` flag of `checkVirusTotalEvidence` (part_003 line 500). -/
def vtAllClean (dirExists ioError : Bool) (files : List VtFile) : Bool :=
  if ioError || !dirExists || files.isEmpty then false
  else
    decide ((files.map vtMalicious).sum = 0) &&
      decide (0 < (files.filter vtIsScan).length)

/-- `checkCloudflareAnalytics` score (part_003 lines 530-600): neutral 50
when the directory, files or pageview data are missing or on error;
95 when pageview data is present. -/
def cfAnalyticsScore (dirExists anyFiles ioError : Bool)
    (pageviews : Nat) : ℚ :=
  if ioError then 50
  else if !dirExists then 50
  else if !anyFiles then 50
  else if 0 < pageviews then 95 else 50

/-- The `hasData` flag of `checkCloudflareAnalytics`. -/
def cfHasData (dirExists anyFiles ioError : Bool) (pageviews : Nat) : Bool :=
  if ioError || !dirExists || !anyFiles then false else decide (0 < pageviews)

/-- Dimension 3 emitted score (`analyzeDimension3_Evidence`, part_003
lines 292-357): the all-clean short-circuit to 95, otherwise the
0.4 / 0.3 / 0.3 weighted combination, rounded, then capped; the outer
catch emits 0. -/
def analyzeDimension3Score (outerError : Bool) (e1 e2 e3 e4 : Bool)
    (vtDirExists vtIoError : Bool) (vtFiles : List VtFile)
    (cfDirExists cfAnyFiles cfIoError : Bool) (pageviews : Nat) : ℚ :=
  if outerError then 0
  else
    let allHealthy : Bool := e1 && e2 && e3 && e4
    let healthScore := healthScoreOf e1 e2 e3 e4
    let securityScore := vtSecurityScore vtDirExists vtIoError vtFiles
    let allClean := vtAllClean vtDirExists vtIoError vtFiles
    let analyticsScore := cfAnalyticsScore cfDirExists cfAnyFiles cfIoError pageviews
    let hasData := cfHasData cfDirExists cfAnyFiles cfIoError pageviews
    let score : ℚ :=
      if allHealthy && allClean && hasData then 95
      else jsRoundQ (healthScore * (2/5) + securityScore * (3/10) +
        analyticsScore * (3/10))
    min score EPISTEMIC_CAP

/-- Decay-percentage bands of `calculateTemporalDecay` (part_003 lines
785-791), as a function of `lastCommitAge` in days; `ioError` models the
inner catch (conservative 5). -/
def calculateTemporalDecayPercent (ioError : Bool) (lastCommitAge : Nat) : ℚ :=
  if ioError then 5
  else if lastCommitAge ≤ 7 then 0
  else if lastCommitAge ≤ 30 then min 3 ((lastCommitAge : ℚ) / 10)
  else min 10 ((lastCommitAge : ℚ) / 30)

/-- Dimension 4 emitted score (`analyzeDimension4_Temporal`, part_003
lines 606-639): 95 minus the decay percentage, clamped to `[0, 95]`;
the outer catch emits the estimated 85. -/
def analyzeDimension4Score (outerError ioError : Bool)
    (lastCommitAge : Nat) : ℚ :=
  if outerError then 85
  else
    let score := 95 - calculateTemporalDecayPercent ioError lastCommitAge
    max 0 (min score EPISTEMIC_CAP)

/-- `checkFinancialEfficiency` score (part_003 lines 679-756): neutral 50
when the evidence directory, files or a positive avoided-cost total are
absent or on error; 95 for any positive avoided-cost total. -/
def checkFinancialEfficiencyScore (dirExists anyFiles ioError : Bool)
    (avoidedCosts : List ℚ) : ℚ :=
  if ioError then 50
  else if !dirExists then 50
  else if !anyFiles then 50
  else if 0 < avoidedCosts.sum then 95 else 50

/-- Dimension 5 emitted score (`analyzeDimension5_Financial`, part_003
lines 645-674): passes the financial-efficiency score through; the outer
catch emits the neutral 50. -/
def analyzeDimension5Score (outerError : Bool)
    (dirExists anyFiles ioError : Bool) (avoidedCosts : List ℚ) : ℚ :=
  if outerError then 50
  else checkFinancialEfficiencyScore dirExists anyFiles ioError avoidedCosts

/-! ## String and matcher utilities

The detector's hard-coded regular expressions are all of restricted
shapes (literal fragments joined by `.*`, whitespace runs, character
classes), embedded below by dedicated matchers.  JS `.` does not match
line terminators, so `.*`-joined fragments must occur on one line. -/

/-- Occurrence of `pat` as a contiguous sublist. -/
def containsList (pat : List Char) : List Char → Bool
  | [] => pat.isEmpty
  | l@(_ :: rest) => pat.isPrefixOf l || containsList pat rest

/-- JS `String.prototype.includes`. -/
def containsStr (s pat : String) : Bool := containsList pat.toList s.toList

/-- JS `String.prototype.endsWith`. -/
def endsWithStr (s pat : String) : Bool :=
  pat.toList.reverse.isPrefixOf s.toList.reverse

/-- JS `String.prototype.toLowerCase` (ASCII; every case-sensitive
literal in the detector is ASCII). -/
def toLowerStr (s : String) : String := String.mk (s.toList.map Char.toLower)

/-- JS line terminators (not matched by `.`). -/
def isLineTerminator (c : Char) : Bool :=
  c = '\n' || c = '\r' || c = '\u2028' || c = '\u2029'

def splitLinesAux : List Char → List Char → List (List Char)
  | [], acc => [acc.reverse]
  | c :: rest, acc =>
    if isLineTerminator c then acc.reverse :: splitLinesAux rest []
    else splitLinesAux rest (c :: acc)

/-- Split a text into the maximal runs not containing a line
terminator (the spans within which `.*` can match). -/
def splitLines (s : List Char) : List (List Char) := splitLinesAux s []

/-- The prefix of `l` up to the next line terminator (what `.*` can
still reach from the current position). -/
def currentLine (l : List Char) : List Char :=
  l.takeWhile (fun c => !isLineTerminator c)

/-- Drop everything up to and including the first occurrence of `frag`;
`none` when `frag` does not occur. -/
def dropAfterFrag (frag : List Char) : List Char → Option (List Char)
  | [] => if frag.isEmpty then some [] else none
  | c :: rest =>
    if frag.isPrefixOf (c :: rest) then some ((c :: rest).drop frag.length)
    else dropAfterFrag frag rest

/-- `frags` occur in order (a match of `f1.*f2.*…*fn`). -/
def containsInOrder : List (List Char) → List Char → Bool
  | [], _ => true
  | f :: fs, l =>
    match dropAfterFrag f l with
    | none => false
    | some rest => containsInOrder fs rest

/-- Test of a case-insensitive `f1.*f2.*…` regex: some line of the
lowercased text contains the (pre-lowercased) fragments in order. -/
def reTestCI (frags : List String) (text : String) : Bool :=
  (splitLines (toLowerStr text).toList).any
    (fun line => containsInOrder (frags.map (fun f => f.toList)) line)

/-- Leading JS-whitespace run: its length and the remainder (`\s+`
consumes maximally; every follower in the embedded regexes is
non-whitespace, so maximal munch is exact). -/
def dropWs : List Char → Nat × List Char
  | [] => (0, [])
  | c :: rest =>
    if c.isWhitespace then
      let p := dropWs rest
      (p.1 + 1, p.2)
    else (0, c :: rest)

/-- Consume a literal. -/
def expectLit (lit : List Char) (l : List Char) : Option (List Char) :=
  if lit.isPrefixOf l then some (l.drop lit.length) else none

/-- Consume `\s+`. -/
def expectWs1 (l : List Char) : Option (List Char) :=
  let p := dropWs l
  if p.1 = 0 then none else some p.2

/-- Try a matcher at every suffix position of the text. -/
def scanPositions (p : List Char → Bool) : List Char → Bool
  | [] => p []
  | l@(_ :: rest) => p l || scanPositions p rest

/-! ## PatternDetector data model -/

/-- A detection pattern from the registry, as the compiled matcher the
source builds with `new RegExp(p, 'i')` and applies via `.test(text)`. -/
abbrev Pat := String → Bool

/-- `{min, max, proven}` financial-impact range. -/
structure FinImpact where
  min : ℚ
  max : ℚ
  proven : Bool
deriving DecidableEq

/-- A rule record (`RuleRecord` / incident).  `textPatterns = none`
models a record whose `pattern.detection.textPatterns` chain is
missing: in JS the property access then throws a `TypeError`. -/
structure Incident where
  id : String
  textPatterns : Option (List Pat)
  financialImpact : FinImpact

/-- The analysis context; only `file` is read by the detector (the
source label, timestamp and file list are passed through untouched). -/
structure Context where
  file : Option String
deriving DecidableEq

/-- The active rule set (`this.incidents`): a JS object keyed by rule
identifier, as an association list (later inserts overwrite, see
`regInsert`). -/
abbrev Registry := List (String × Incident)

/-- A violation finding.  Display-only emoji prefixes and the constant
`details` / `law` / `suggestedFix` prose are not carried. -/
structure Violation where
  type : String
  severity : String
  incident : Option String
  message : String
  financialRisk : Option FinImpact
  context : Context
deriving DecidableEq

/-- A warning finding. -/
structure Warning where
  type : String
  severity : String
  incident : Option String
  message : String
  details : String
  context : Context
deriving DecidableEq

/-- A commendation finding. -/
structure Commendation where
  type : String
  message : String
deriving DecidableEq

/-- The record returned by `PatternDetector.getResults`. -/
structure Results where
  violations : List Violation
  warnings : List Warning
  commendations : List Commendation
  hasViolations : Bool
  hasCritical : Bool
deriving DecidableEq

/-- `getResults` (PatternDetector.js lines 672-680). -/
def getResults (vs : List Violation) (ws : List Warning)
    (cs : List Commendation) : Results :=
  { violations := vs
    warnings := ws
    commendations := cs
    hasViolations := !vs.isEmpty
    hasCritical := vs.any (fun v => v.severity == "CRITICAL") }

/-! ## Exception classifiers (PatternDetector.js lines 642-667) -/

/-- `isDocumentation`: recognizable policy-discussion markers. -/
def isDocumentation (text : String) : Bool :=
  containsStr text "SECURITY-PHILOSOPHY" ||
  containsStr text "THE LAW" ||
  containsStr text "Born Without Sin" ||
  containsStr text "what NOT to do" ||
  containsStr text "What Legacy Enterprises" ||
  containsStr text "Why They Need It | Why You Don\x27t" ||
  containsStr text "IMPLEMENTATION-PLAN" ||
  containsStr text "JUDGE-DREDD-AGENT-GUIDE"

/-- `isInvestorMaterials`: investor/business-narrative markers. -/
def isInvestorMaterials (text : String) : Bool :=
  containsStr text "ARR" ||
  containsStr text "portfolio value" ||
  containsStr text "Patent #" ||
  containsStr text "**Problem:**" ||
  containsStr text "competitors" ||
  containsStr text "TAM:"

/-! ## Rule-backed checks -/

/-- `checkIssue43Pattern` (lines 117-148): security-control removal,
CRITICAL, first-match-wins over the rule's patterns. -/
def checkIssue43Pattern (incidents : Registry) (text : String)
    (context : Context) : Except Unit (List Violation) :=
  match List.lookup "issue-43" incidents with
  | none => .ok []
  | some incident =>
    match incident.textPatterns with
    | none => .error ()
    | some patterns =>
      if patterns.any (fun p => p text) then
        .ok [{ type := "SECURITY_CONTROL_REMOVAL", severity := "CRITICAL"
               incident := some "Issue #43"
               message := "SECURITY CONTROL REMOVAL DETECTED"
               financialRisk := some incident.financialImpact
               context := context }]
      else .ok []

/-- `checkIssue32Pattern` (lines 153-185): NO NGINX law, HIGH, no
financial-risk range. -/
def checkIssue32Pattern (incidents : Registry) (text : String)
    (context : Context) : Except Unit (List Violation) :=
  match List.lookup "issue-32" incidents with
  | none => .ok []
  | some incident =>
    match incident.textPatterns with
    | none => .error ()
    | some patterns =>
      if patterns.any (fun p => p text) then
        .ok [{ type := "NO_NGINX_LAW", severity := "HIGH"
               incident := some "Issue #32"
               message := "NO NGINX LAW VIOLATED"
               financialRisk := none
               context := context }]
      else .ok []

/-- `checkIssue41Pattern` (lines 190-232): heuristic untested-deploy
warning; consults only the context's file path and the text, never the
registry. -/
def checkIssue41Pattern (text : String) (context : Context) : List Warning :=
  let isWorkflowChange : Bool :=
    match context.file with
    | none => false
    | some f => containsStr f ".github/workflows" || containsStr f "deploy"
  if isWorkflowChange then
    let hasTestEvidence : Bool :=
      reTestCI ["test", "local"] text ||
      reTestCI ["local", "test"] text ||
      reTestCI ["verified", "local"] text ||
      reTestCI ["curl", "localhost"] text
    if !hasTestEvidence then
      [{ type := "UNTESTED_DEPLOY", severity := "HIGH"
         incident := some "Issue #41"
         message := "UNTESTED DEPLOYMENT PATTERN DETECTED"
         details := "You modified CI/CD workflows without evidence of local testing."
         context := context }]
    else []
  else []

/-- Matcher for `:root\s*\x7b[\s\S]*?--` after a `:root` occurrence:
whitespace run, an opening brace, then `--` anywhere after (the
`[\s\S]` class crosses lines). -/
def rootAfterScan (l : List Char) : Bool :=
  match l.dropWhile (fun c => c.isWhitespace) with
  | '{' :: r => containsList "--".toList r
  | _ => false

/-- Scan for the theme-variable pattern at every `:root` occurrence. -/
def rootThemeScan : List Char → Bool
  | [] => false
  | c :: rest =>
    (if ":root".toList.isPrefixOf (c :: rest) then
      rootAfterScan ((c :: rest).drop 5)
     else false) || rootThemeScan rest

def hasThemeVarsCheck (text : String) : Bool := rootThemeScan text.toList

/-- The `[data-theme=['"]light['"]]` literal in its four quote
combinations. -/
def hasLightThemeCheck (text : String) : Bool :=
  containsStr text "[data-theme=\x27light\x27]" ||
  containsStr text "[data-theme=\x27light\x22]" ||
  containsStr text "[data-theme=\x22light\x27]" ||
  containsStr text "[data-theme=\x22light\x22]"

def hasToggleThemeCheck (text : String) : Bool :=
  containsStr text "function toggleTheme()"

/-- `checkDaymanNightmanTheme` (lines 237-315): registry-guarded
theming-contract completeness warning on customer-facing HTML files. -/
def checkDaymanNightmanTheme (incidents : Registry) (text : String)
    (context : Context) : List Warning :=
  match List.lookup "dayman-nightman-theme" incidents with
  | none => []
  | some _ =>
    let isCustomerFacingHTML : Bool :=
      match context.file with
      | none => false
      | some f =>
        (containsStr f "/public/" && endsWithStr f ".html") ||
        (containsStr f "/services/" && endsWithStr f ".html") ||
        (containsStr f "status-page" && endsWithStr f ".html")
    if !isCustomerFacingHTML then []
    else
      let missingElements : List String :=
        (if !hasThemeVarsCheck text then [":root CSS variables"] else []) ++
        (if !hasLightThemeCheck text then ["[data-theme=\x22light\x22] styles"] else []) ++
        (if !hasToggleThemeCheck text then ["toggleTheme() function"] else []) ++
        (if !containsStr text "DAYMAN" then ["DAYMAN reference"] else []) ++
        (if !containsStr text "NIGHTMAN" then ["NIGHTMAN reference"] else [])
      if 0 < missingElements.length then
        [{ type := "MISSING_THEME_SYSTEM", severity := "MEDIUM"
           incident := some "DAYMAN/NIGHTMAN Theme"
           message := "DAYMAN/NIGHTMAN THEME SYSTEM MISSING"
           details := "Customer-facing page is missing theme system elements: "
             ++ String.intercalate ", " missingElements
           context := context }]
      else []

/-- `checkAlpineBaseImagePattern` (lines 320-362): disallowed base-image
family, HIGH, with financial-risk range. -/
def checkAlpineBaseImagePattern (incidents : Registry) (text : String)
    (context : Context) : Except Unit (List Violation) :=
  match List.lookup "alpine-base-image" incidents with
  | none => .ok []
  | some incident =>
    match incident.textPatterns with
    | none => .error ()
    | some patterns =>
      if patterns.any (fun p => p text) then
        .ok [{ type := "ALPINE_BASE_IMAGE", severity := "HIGH"
               incident := some "Alpine Base Image"
               message := "BASE IMAGE LAW VIOLATED"
               financialRisk := some incident.financialImpact
               context := context }]
      else .ok []

/-- `checkDockerAmd64PlatformPattern` (lines 367-417): correct-approach
allow-list is tested before the rule's pattern list is touched. -/
def checkDockerAmd64PlatformPattern (incidents : Registry) (text : String)
    (context : Context) : Except Unit (List Violation) :=
  match List.lookup "docker-amd64-platform" incidents with
  | none => .ok []
  | some incident =>
    if containsStr text "./build-and-push.sh" ||
        containsStr text "--platform linux/amd64" then .ok []
    else
      match incident.textPatterns with
      | none => .error ()
      | some patterns =>
        if patterns.any (fun p => p text) then
          .ok [{ type := "DOCKER_AMD64_PLATFORM", severity := "HIGH"
                 incident := some "Docker AMD64 Platform"
                 message := "DOCKER BUILD LAW VIOLATED"
                 financialRisk := some incident.financialImpact
                 context := context }]
        else .ok []

/-- The correct-approach allow-list of `checkLiveDataLawPattern` (lines
463-469), five case-insensitive regexes. -/
def liveDataCorrectPatterns (text : String) : Bool :=
  reTestCI ["fetch(", "\x27/health"] text ||
  reTestCI ["fetch(", "\x22/health"] text ||
  reTestCI ["fetch(", "\x27/api/version"] text ||
  reTestCI ["fetch(", "\x22/api/version"] text ||
  reTestCI ["getelementbyid(", "version"] text ||
  reTestCI ["updatesprintstats"] text ||
  reTestCI ["textcontent", "=", "data."] text ||
  reTestCI ["// version from ", "api"] text

/-- `checkLiveDataLawPattern` (lines 449-524): file-type scoping and the
correctness allow-list run before the rule's pattern list is touched. -/
def checkLiveDataLawPattern (incidents : Registry) (text : String)
    (context : Context) : Except Unit (List Violation) :=
  match List.lookup "live-data-law" incidents with
  | none => .ok []
  | some incident =>
    let isRelevantFile : Bool :=
      match context.file with
      | none => false
      | some f =>
        endsWithStr f ".html" ||
        (containsStr f "/public/" && endsWithStr f ".js") ||
        (containsStr f "/views/" && endsWithStr f ".ejs")
    if !isRelevantFile then .ok []
    else if liveDataCorrectPatterns text then .ok []
    else
      match incident.textPatterns with
      | none => .error ()
      | some patterns =>
        if patterns.any (fun p => p text) then
          .ok [{ type := "HARDCODED_LIVE_DATA", severity := "HIGH"
                 incident := some "Live Data Law"
                 message := "LIVE DATA LAW VIOLATED"
                 financialRisk := some incident.financialImpact
                 context := context }]
        else .ok []

/-- Tail of the first breakout regex after the directory alternative:
`\s+&&.*git`. -/
def breakoutTail (r : List Char) : Bool :=
  match expectWs1 r with
  | none => false
  | some r2 =>
    match expectLit "&&".toList r2 with
    | none => false
    | some r3 => containsList "git".toList (currentLine r3)

/-- First breakout regex
`cd\s+(\.\./\.\.|\.\.\\\.\.|\.\./\.\./)\s+&&.*git` tried at one
position (alternatives in source order, as regex alternation). -/
def breakoutAlt1 (l : List Char) : Bool :=
  match expectLit "cd".toList l with
  | none => false
  | some r =>
    match expectWs1 r with
    | none => false
    | some r1 =>
      ["../..", "..\\..", "../../"].any (fun alt =>
        match expectLit alt.toList r1 with
        | none => false
        | some r2 => breakoutTail r2)

/-- Second breakout regex `cd\s+\.\.\s+&&\s+cd\s+\.\.\s+&&.*git` tried
at one position. -/
def breakoutAlt2 (l : List Char) : Bool :=
  match expectLit "cd".toList l with
  | none => false
  | some r =>
    match expectWs1 r with
    | none => false
    | some r1 =>
      match expectLit "..".toList r1 with
      | none => false
      | some r2 =>
        match expectWs1 r2 with
        | none => false
        | some r3 =>
          match expectLit "&&".toList r3 with
          | none => false
          | some r4 =>
            match expectWs1 r4 with
            | none => false
            | some r5 =>
              match expectLit "cd".toList r5 with
              | none => false
              | some r6 =>
                match expectWs1 r6 with
                | none => false
                | some r7 =>
                  match expectLit "..".toList r7 with
                  | none => false
                  | some r8 => breakoutTail r8

/-- The two directory-breakout regexes of `checkGitDirectoryBreakout`
(lines 536-537), case-insensitive, tried at every position. -/
def gitBreakoutMatch (text : String) : Bool :=
  let l := (toLowerStr text).toList
  scanPositions breakoutAlt1 l || scanPositions breakoutAlt2 l

/-- `checkGitDirectoryBreakout` (lines 530-566): registry-guarded, but
the patterns themselves are hard-coded (the rule record's pattern list
is never read, so a malformed record cannot throw here). -/
def checkGitDirectoryBreakout (incidents : Registry) (text : String)
    (context : Context) : List Violation :=
  match List.lookup "git-directory-breakout" incidents with
  | none => []
  | some _ =>
    if gitBreakoutMatch text then
      [{ type := "GIT_DIRECTORY_BREAKOUT", severity := "MEDIUM"
         incident := some "Issue #95"
         message := "DIRECTORY BREAKOUT DETECTED"
         financialRisk := none
         context := context }]
    else []

/-! ## Heuristic checks -/

/-- The five fixed keyword categories of `checkEnterpriseSprawl` (lines
423-429), each a case-insensitive `.*`-joined keyword regex. -/
def enterpriseSprawlCategories : List (String × List String) :=
  [("DDoS Protection", ["ddos", "protection", "standard"]),
   ("Private Link", ["private", "link"]),
   ("Enterprise Key Management", ["enterprise", "key", "management"]),
   ("Application Gateway", ["application", "gateway"]),
   ("Azure Firewall", ["azure", "firewall"])]

def mkSprawlViolation (name : String) (context : Context) : Violation :=
  { type := "ENTERPRISE_SPRAWL", severity := "CRITICAL"
    incident := none
    message := "ENTERPRISE SPRAWL: " ++ name ++ " detected"
    financialRisk := none
    context := context }

/-- `checkEnterpriseSprawl` (lines 422-444): one CRITICAL violation per
matching category, in source order, with no break; the
`skipCostChecks` argument is received but never used, and the registry
is never consulted. -/
def checkEnterpriseSprawl (text : String) (context : Context)
    (skipCostChecks : Bool) : List Violation :=
  (enterpriseSprawlCategories.filter (fun cat => reTestCI cat.2 text)).map
    (fun cat => mkSprawlViolation cat.1 context)

/-- First expensive-cost regex `\$[5-9]\d{2,}.*month` on the lowercased
text: a dollar sign, a digit 5-9, at least two more digits, then
`month` later on the same line. -/
def costScan1 : List Char → Bool
  | [] => false
  | c :: rest =>
    (c = '$' &&
      match rest with
      | c1 :: c2 :: c3 :: r =>
        ('5' ≤ c1 && c1 ≤ '9') && c2.isDigit && c3.isDigit &&
          containsList "month".toList (currentLine r)
      | _ => false) || costScan1 rest

/-- Second expensive-cost regex `\$\d{4,}.*month` on the lowercased
text. -/
def costScan2 : List Char → Bool
  | [] => false
  | c :: rest =>
    (c = '$' &&
      match rest with
      | c1 :: c2 :: c3 :: c4 :: r =>
        c1.isDigit && c2.isDigit && c3.isDigit && c4.isDigit &&
          containsList "month".toList (currentLine r)
      | _ => false) || costScan2 rest

/-- `checkCostEfficiency` (lines 580-602): suppressed for investor
materials; first matching pattern emits one HIGH warning. -/
def checkCostEfficiency (text : String) (context : Context)
    (skipCostChecks : Bool) : List Warning :=
  if skipCostChecks then []
  else
    let lower := (toLowerStr text).toList
    if costScan1 lower || costScan2 lower then
      [{ type := "COST_INEFFICIENCY", severity := "HIGH"
         incident := none
         message := "HIGH COST DETECTED"
         details := "DugganUSA LLC maintains lean infrastructure costs per business model."
         context := context }]
    else []

/-- `checkCommendations` (lines 607-637): keyword scans on the
lowercased text, unconditional, in source order. -/
def checkCommendations (text : String) : List Commendation :=
  let lowerText := toLowerStr text
  (if containsStr lowerText "cost" &&
      (containsStr lowerText "reduction" || containsStr lowerText "efficiency") then
    [{ type := "COST_EFFICIENCY"
       message := "Maintaining extreme cost efficiency - The Law is upheld" }]
   else []) ++
  (if containsStr lowerText "soc1" || containsStr lowerText "compliance" then
    [{ type := "SOC1_FOCUS"
       message := "Focusing on application compliance - The Law is upheld" }]
   else []) ++
  (if containsStr lowerText "cisa" || containsStr lowerText "zero-day" ||
      containsStr lowerText "kev" then
    [{ type := "ZERO_DAY_PROTECTION"
       message := "Free, effective threat protection - The Law is upheld" }]
   else []) ++
  (if containsStr lowerText "born without sin" ||
      containsStr lowerText "no legacy" then
    [{ type := "PHILOSOPHICAL_ALIGNMENT"
       message := "Understanding the competitive advantage - The Law is upheld" }]
   else [])

/-- `checkHardcodedData` (lines 572-575): deprecated alias that
delegates to `checkLiveDataLawPattern`, still called by `analyze`. -/
def checkHardcodedData (incidents : Registry) (text : String)
    (context : Context) : Except Unit (List Violation) :=
  checkLiveDataLawPattern incidents text context

/-! ## `analyze` (PatternDetector.js lines 64-112) -/

/-- The documentation-exemption commendation (lines 77-80). -/
def docCommendation : Commendation :=
  { type := "DOCUMENTATION"
    message := "Documenting THE LAW - teaching what to avoid" }

/-- The investor-materials commendation (lines 87-90). -/
def investorCommendation : Commendation :=
  { type := "INVESTOR_MATERIALS"
    message := "Investor materials - describing market opportunity" }

/-- `analyze` with the registry already resolved.  The checks are
sequenced in source order; each kind of finding lands in its array in
call order; a thrown `TypeError` (malformed rule record) aborts the
pass.  The documentation short-circuit returns before any rule or
heuristic check. -/
def analyze (incidents : Registry) (text : String) (context : Context) :
    Except Unit Results :=
  if isDocumentation text then
    .ok (getResults [] [] [docCommendation])
  else
    let isInv := isInvestorMaterials text
    let invComs : List Commendation := if isInv then [investorCommendation] else []
    do
      let v43 ← checkIssue43Pattern incidents text context
      let v32 ← checkIssue32Pattern incidents text context
      let w41 := checkIssue41Pattern text context
      let wTheme := checkDaymanNightmanTheme incidents text context
      let vAlpine ← checkAlpineBaseImagePattern incidents text context
      let vDocker ← checkDockerAmd64PlatformPattern incidents text context
      let vLive ← checkLiveDataLawPattern incidents text context
      let vGit := checkGitDirectoryBreakout incidents text context
      let vSprawl := checkEnterpriseSprawl text context isInv
      let vLive2 ← checkHardcodedData incidents text context
      let wCost := checkCostEfficiency text context isInv
      let coms := checkCommendations text
      .ok (getResults
        (v43 ++ v32 ++ vAlpine ++ vDocker ++ vLive ++ vGit ++ vSprawl ++ vLive2)
        (w41 ++ wTheme ++ wCost)
        (invComs ++ coms))

/-- A `PatternDetector` instance's mutable fields. -/
structure DetectorState where
  violations : List Violation
  warnings : List Warning
  commendations : List Commendation
  incidents : Option Registry

/-- One `analyze` call on a detector instance: the per-call arrays are
reset at the start of the pass, the registry is lazily loaded on first
use (`loadResult` is what `loadIncidentPatterns` would install), and on
success the instance's arrays hold exactly this pass's findings.  A
thrown pass is modelled as `Except.error` (the partially filled arrays
of a thrown pass are not tracked; no caller observes them). -/
def analyzeInstance (loadResult : Registry) (s : DetectorState)
    (text : String) (context : Context) :
    Except Unit (Results × DetectorState) :=
  let reg := match s.incidents with
    | some r => r
    | none => loadResult
  (analyze reg text context).map (fun res =>
    (res, { violations := res.violations
            warnings := res.warnings
            commendations := res.commendations
            incidents := some reg }))

/-! ## Telemetry send (`CentralBrainSender.sendEvents`,
CentralBrainClient.js lines 139-178)

The network is abstracted as `net : ℕ → Bool` (whether the POST of a
given attempt number succeeds).  Every throw inside the attempt is
caught by the catch block, which either sleeps and retries or logs and
drops, so the function is total and surfaces nothing to the caller. -/

/-- What one `sendEvents` call did: total attempts made, the backoff
delays slept between attempts, and whether delivery succeeded (when
`attempts` is 0 the call was skipped; exhausted retries drop the
events). -/
structure SendLog where
  attempts : Nat
  delays : List Nat
  delivered : Bool
deriving DecidableEq

/-- `this.retryAttempts` (line 19). -/
def retryAttempts : Nat := 3

/-- `this.retryDelay`, the exponential-backoff base in ms (line 20). -/
def retryDelay : Nat := 1000

/-- The retry recursion of `sendEvents`: `remaining` is
`retryAttempts - attempt`, so `0 < remaining` is the source's
`attempt < this.retryAttempts` retry condition; the delay slept before
attempt `n+1` is `retryDelay * 2 ^ (n - 1)`. -/
def sendEventsGo (net : Nat → Bool) : Nat → Nat → SendLog
  | 0, attempt =>
    if net attempt then { attempts := attempt, delays := [], delivered := true }
    else { attempts := attempt, delays := [], delivered := false }
  | remaining + 1, attempt =>
    if net attempt then { attempts := attempt, delays := [], delivered := true }
    else
      let delay := retryDelay * 2 ^ (attempt - 1)
      let rest := sendEventsGo net remaining (attempt + 1)
      { attempts := rest.attempts, delays := delay :: rest.delays
        delivered := rest.delivered }

/-- `sendEvents` (lines 139-178): skipped when disabled or empty,
otherwise up to `retryAttempts` total attempts starting at attempt 1. -/
def sendEvents {α : Type} (enabled : Bool) (events : List α)
    (net : Nat → Bool) : SendLog :=
  if !enabled || events.isEmpty then { attempts := 0, delays := [], delivered := false }
  else sendEventsGo net (retryAttempts - 1) 1

/-- The `dredd review` call site (cli/index.js lines 59-80): telemetry
is fired without being awaited and every rejection is swallowed, so the
analysis results handed to display / exit-code mapping are whatever
`analyze` returned, independent of the send. -/
def reviewOutcome {α : Type} (results : Results) (enabled : Bool)
    (events : List α) (net : Nat → Bool) : Results :=
  let _ := sendEvents enabled events net
  results

/-! ## Registry load (`loadIncidentPatterns`, PatternDetector.js lines
21-59)

`livePatterns` is what `centralBrain.fetchIncidentPatterns()` resolves
to (it catches its own errors and resolves to the empty set on any
failure); `localDir` is the outcome of reading the fallback directory:
`Except.error` when `readdir` throws, otherwise the parse outcome of
each JSON file in order.  The function returns the new value of
`this.incidents` together with its boolean result. -/

/-- JS object insert: overwrite the entry with the same key, else
append. -/
def regInsert (reg : Registry) (k : String) (v : Incident) : Registry :=
  if reg.any (fun p => p.1 == k) then
    reg.map (fun p => if p.1 == k then (k, v) else p)
  else reg ++ [(k, v)]

/-- The local-fallback file loop (lines 44-50): build a fresh registry
from the parsed files; the first parse failure throws into the catch
(`none`). -/
def loadLocalFiles : List (Except Unit Incident) → Registry → Option Registry
  | [], acc => some acc
  | .error _ :: _, _ => none
  | .ok inc :: rest, acc => loadLocalFiles rest (regInsert acc inc.id inc)

/-- `loadIncidentPatterns`: remote set when enabled and non-empty, else
a fresh local load; the catch branch (unreadable directory or any parse
failure) leaves `this.incidents = {}` — the empty set, not the previous
set — and returns `false`. -/
def loadIncidentPatterns (enabled : Bool) (livePatterns : Registry)
    (localDir : Except Unit (List (Except Unit Incident)))
    (prev : Option Registry) : Option Registry × Bool :=
  if enabled && !livePatterns.isEmpty then (some livePatterns, true)
  else
    match localDir with
    | .error _ => (some [], false)
    | .ok files =>
      match loadLocalFiles files [] with
      | none => (some [], false)
      | some reg => (some reg, true)

/-! ## Helper lemmas -/

theorem jsRoundQ_nonneg {q : ℚ} (h : 0 ≤ q) : 0 ≤ jsRoundQ q := by
  unfold jsRoundQ
  have : (0 : ℤ) ≤ ⌊q + 1/2⌋ := by
    rw [Int.le_floor]
    norm_num
    linarith
  exact_mod_cast this

theorem jsRoundQ_le {q : ℚ} {n : ℤ} (h : q ≤ (n : ℚ)) : jsRoundQ q ≤ (n : ℚ) := by
  unfold jsRoundQ
  have : ⌊q + 1/2⌋ ≤ n := by
    rw [Int.floor_le_iff]
    linarith
  exact_mod_cast this

theorem minOf5_le_maxOf5 (a b c d e : ℚ) : minOf5 a b c d e ≤ maxOf5 a b c d e :=
  le_trans (min_le_left _ _) (le_max_left _ _)

/-! ## Claim theorems -/

/-- C1: for every five dimension results, `correlate5D` computes the
average as the mean of the five scores, `maxDrift` as max minus min
(never negative) and `hasDrift` as `maxDrift > 10`; the overall status
is `DRIFT_DETECTED` when drifting, else `INCONSISTENT` when the average
is below 85, else `GODEL_COMPLIANT` (so `GODEL_COMPLIANT` holds iff
`maxDrift ≤ 10` and `average ≥ 85`); and the final score is
`round(min(average, 95))`.  The spec's synthetic vector
`[95, 89, 90, 95, 95]` gives drift 6 and final score 93. -/
theorem correlate5D_spec (d1 d2 d3 d4 d5 : DimensionResult) :
    (correlate5D d1 d2 d3 d4 d5).correlation.avgScore
        = jsRoundQ ((d1.score + d2.score + d3.score + d4.score + d5.score) / 5)
    ∧ (correlate5D d1 d2 d3 d4 d5).correlation.maxDrift
        = maxOf5 d1.score d2.score d3.score d4.score d5.score
          - minOf5 d1.score d2.score d3.score d4.score d5.score
    ∧ 0 ≤ (correlate5D d1 d2 d3 d4 d5).correlation.maxDrift
    ∧ ((correlate5D d1 d2 d3 d4 d5).correlation.hasDrift = true
        ↔ 10 < (correlate5D d1 d2 d3 d4 d5).correlation.maxDrift)
    ∧ ((correlate5D d1 d2 d3 d4 d5).status = "DRIFT_DETECTED"
        ↔ 10 < (correlate5D d1 d2 d3 d4 d5).correlation.maxDrift)
    ∧ ((correlate5D d1 d2 d3 d4 d5).status = "INCONSISTENT"
        ↔ (correlate5D d1 d2 d3 d4 d5).correlation.maxDrift ≤ 10
          ∧ (d1.score + d2.score + d3.score + d4.score + d5.score) / 5 < 85)
    ∧ ((correlate5D d1 d2 d3 d4 d5).status = "GODEL_COMPLIANT"
        ↔ (correlate5D d1 d2 d3 d4 d5).correlation.maxDrift ≤ 10
          ∧ 85 ≤ (d1.score + d2.score + d3.score + d4.score + d5.score) / 5)
    ∧ ((correlate5D d1 d2 d3 d4 d5).godelCompliant = true
        ↔ (correlate5D d1 d2 d3 d4 d5).correlation.maxDrift ≤ 10
          ∧ 85 ≤ (d1.score + d2.score + d3.score + d4.score + d5.score) / 5)
    ∧ (correlate5D d1 d2 d3 d4 d5).finalScore
        = jsRoundQ (min ((d1.score + d2.score + d3.score + d4.score + d5.score) / 5) 95)
    ∧ (correlate5D (mkDim 1 95) (mkDim 2 89) (mkDim 3 90) (mkDim 4 95)
        (mkDim 5 95)).finalScore = 93
    ∧ (correlate5D (mkDim 1 95) (mkDim 2 89) (mkDim 3 90) (mkDim 4 95)
        (mkDim 5 95)).status = "GODEL_COMPLIANT"
    ∧ (correlate5D (mkDim 1 95) (mkDim 2 89) (mkDim 3 90) (mkDim 4 95)
        (mkDim 5 95)).correlation.maxDrift = 6 := by
  have hsum : [d1.score, d2.score, d3.score, d4.score, d5.score].sum
      = d1.score + d2.score + d3.score + d4.score + d5.score := by
    simp
    ring
  have hdrift : 0 ≤ maxOf5 d1.score d2.score d3.score d4.score d5.score
      - minOf5 d1.score d2.score d3.score d4.score d5.score :=
    sub_nonneg.mpr (minOf5_le_maxOf5 _ _ _ _ _)
  have hstat : (correlate5D d1 d2 d3 d4 d5).status =
      if 10 < maxOf5 d1.score d2.score d3.score d4.score d5.score
          - minOf5 d1.score d2.score d3.score d4.score d5.score then "DRIFT_DETECTED"
      else if (d1.score + d2.score + d3.score + d4.score + d5.score) / 5 < 85 then
        "INCONSISTENT"
      else "GODEL_COMPLIANT" := by
    simp [correlate5D, hsum]
  have sde : ("DRIFT_DETECTED" : String) ≠ "INCONSISTENT" := by decide
  have sdg : ("DRIFT_DETECTED" : String) ≠ "GODEL_COMPLIANT" := by decide
  have sig : ("INCONSISTENT" : String) ≠ "GODEL_COMPLIANT" := by decide
  have hmd : (correlate5D d1 d2 d3 d4 d5).correlation.maxDrift
      = maxOf5 d1.score d2.score d3.score d4.score d5.score
        - minOf5 d1.score d2.score d3.score d4.score d5.score := by
    simp [correlate5D]
  refine ⟨?_, ?_, ?_, ?_, ?_, ?_, ?_, ?_, ?_, ?_, ?_, ?_⟩
  · simp [correlate5D, hsum]
  · simp [correlate5D]
  · simpa [correlate5D] using hdrift
  · simp [correlate5D]
  · rw [hstat, hmd]
    split_ifs with h h2
    · simp [h]
    · simp [h, sde.symm]
    · simp [h, sdg.symm]
  · rw [hstat, hmd]
    split_ifs with h h2
    · simp [sde, not_le.2 h]
    · simp [not_lt.1 h, h2]
    · simp [sig, h2]
  · rw [hstat, hmd]
    split_ifs with h h2
    · simp [sdg, not_le.2 h]
    · simp [sig, not_le.2 h2]
    · simp [not_lt.1 h, not_lt.1 h2]
  · rw [hmd]
    simp only [correlate5D, hsum]
    simp [not_lt]
  · simp [correlate5D, hsum, EPISTEMIC_CAP]
  · norm_num [correlate5D, mkDim, jsRoundQ, EPISTEMIC_CAP, max_def, min_def]
  · norm_num [correlate5D, mkDim, max_def, min_def, maxOf5, minOf5]
  · norm_num [correlate5D, mkDim, max_def, min_def, maxOf5, minOf5]

theorem validateCorpusScore_nonneg (ec : Nat) (b1 b2 b3 b4 : Bool) :
    0 ≤ validateCorpusScore ec b1 b2 b3 b4 := by
  unfold validateCorpusScore
  refine le_min (by norm_num) (jsRoundQ_nonneg ?_)
  have hc : (0 : ℚ) ≤ if 50 ≤ ec then (95 : ℚ)
      else jsRoundQ ((ec : ℚ) / 50 * 95) := by
    split_ifs
    · norm_num
    · exact jsRoundQ_nonneg (by positivity)
  have hq : (0 : ℚ) ≤ jsRoundQ ((alignmentCount b1 b2 b3 b4 : ℚ) / 4 * 95) :=
    jsRoundQ_nonneg (by positivity)
  linarith

theorem healthScoreOf_bounds (e1 e2 e3 e4 : Bool) :
    0 ≤ healthScoreOf e1 e2 e3 e4 ∧ healthScoreOf e1 e2 e3 e4 ≤ 100 := by
  cases e1 <;> cases e2 <;> cases e3 <;> cases e4 <;>
    norm_num [healthScoreOf, jsRoundQ]

theorem vtSecurityScore_bounds (dirExists ioError : Bool) (files : List VtFile) :
    0 ≤ vtSecurityScore dirExists ioError files ∧
      vtSecurityScore dirExists ioError files ≤ 95 := by
  unfold vtSecurityScore
  dsimp only
  split_ifs with h1 h2 h3 h4 h5 h6
  · constructor <;> norm_num
  · constructor <;> norm_num
  · constructor <;> norm_num
  · constructor <;> norm_num
  · constructor <;> norm_num
  · constructor <;> norm_num
  · constructor
    · exact le_max_left _ _
    · refine max_le (by norm_num) ?_
      have hpen : (0 : ℚ) ≤ min 100 (((files.map vtMalicious).sum : ℚ) * 10 +
          ((files.map vtSuspicious).sum : ℚ) * 5) :=
        le_min (by norm_num) (by positivity)
      linarith

theorem cfAnalyticsScore_bounds (dirExists anyFiles ioError : Bool) (pv : Nat) :
    0 ≤ cfAnalyticsScore dirExists anyFiles ioError pv ∧
      cfAnalyticsScore dirExists anyFiles ioError pv ≤ 95 := by
  unfold cfAnalyticsScore
  split_ifs <;> norm_num

/-- C2: every score emitted by any of the five dimension analyzers, on
all inputs and in every error or degraded branch, lies in `[0, 95]`:
the cap is enforced where the analyzer builds its `DimensionResult`,
not at display time. -/
theorem dimension_scores_bounded :
    (0 ≤ analyzeDimension1Score ∧ analyzeDimension1Score ≤ 95) ∧
    (∀ ce io ec b1 b2 b3 b4,
      0 ≤ analyzeDimension2Score ce io ec b1 b2 b3 b4 ∧
        analyzeDimension2Score ce io ec b1 b2 b3 b4 ≤ 95) ∧
    (∀ oe e1 e2 e3 e4 vd vio vf cd ca cio pv,
      0 ≤ analyzeDimension3Score oe e1 e2 e3 e4 vd vio vf cd ca cio pv ∧
        analyzeDimension3Score oe e1 e2 e3 e4 vd vio vf cd ca cio pv ≤ 95) ∧
    (∀ oe io age,
      0 ≤ analyzeDimension4Score oe io age ∧
        analyzeDimension4Score oe io age ≤ 95) ∧
    (∀ oe d a io costs,
      0 ≤ analyzeDimension5Score oe d a io costs ∧
        analyzeDimension5Score oe d a io costs ≤ 95) := by
  refine ⟨by norm_num [analyzeDimension1Score], ?_, ?_, ?_, ?_⟩
  · intro ce io ec b1 b2 b3 b4
    unfold analyzeDimension2Score
    split_ifs with h1 h2
    · norm_num
    · norm_num
    · constructor
      · refine le_min ?_ (by norm_num [EPISTEMIC_CAP])
        split_ifs
        · norm_num
        · exact validateCorpusScore_nonneg ec b1 b2 b3 b4
      · exact le_trans (min_le_right _ _) (by norm_num [EPISTEMIC_CAP])
  · intro oe e1 e2 e3 e4 vd vio vf cd ca cio pv
    unfold analyzeDimension3Score
    split_ifs with h1
    · norm_num
    · constructor
      · refine le_min ?_ (by norm_num [EPISTEMIC_CAP])
        split_ifs
        · norm_num
        · refine jsRoundQ_nonneg ?_
          have hh := (healthScoreOf_bounds e1 e2 e3 e4).1
          have hv := (vtSecurityScore_bounds vd vio vf).1
          have hc := (cfAnalyticsScore_bounds cd ca cio pv).1
          have t1 : (0 : ℚ) ≤ healthScoreOf e1 e2 e3 e4 * (2/5) := by positivity
          have t2 : (0 : ℚ) ≤ vtSecurityScore vd vio vf * (3/10) := by positivity
          have t3 : (0 : ℚ) ≤ cfAnalyticsScore cd ca cio pv * (3/10) := by positivity
          linarith
      · exact le_trans (min_le_right _ _) (by norm_num [EPISTEMIC_CAP])
  · intro oe io age
    unfold analyzeDimension4Score
    split_ifs with h1
    · norm_num
    · constructor
      · exact le_max_left _ _
      · exact max_le (by norm_num)
          (le_trans (min_le_right _ _) (by norm_num [EPISTEMIC_CAP]))
  · intro oe d a io costs
    unfold analyzeDimension5Score checkFinancialEfficiencyScore
    split_ifs <;> norm_num

/-- C8: the claim asserts the decay percentage is monotonically
non-decreasing in the elapsed-day count, matching the code's own band
comment (`31+ days: 3-10% decay`); the code computes `min 10 (d / 30)`
for `d ≥ 31`, so at `d = 31` the decay is `31/30 ≈ 1.03`, BELOW the
documented 3-point band floor and below the value 3 attained at
`d = 30` — the decay (and hence the dimension-4 score) is not monotone
across the 30 to 31 day boundary. -/
theorem temporal_decay_not_monotone :
    calculateTemporalDecayPercent false 7 = 0 ∧
    calculateTemporalDecayPercent false 30 = 3 ∧
    calculateTemporalDecayPercent false 31 = 31 / 30 ∧
    calculateTemporalDecayPercent false 31 < calculateTemporalDecayPercent false 30 ∧
    ¬ (3 ≤ calculateTemporalDecayPercent false 31) ∧
    analyzeDimension4Score false false 30 = 92 ∧
    analyzeDimension4Score false false 31 = 95 - 31 / 30 ∧
    analyzeDimension4Score false false 30 < analyzeDimension4Score false false 31 := by
  refine ⟨?_, ?_, ?_, ?_, ?_, ?_, ?_, ?_⟩ <;>
    norm_num [calculateTemporalDecayPercent, analyzeDimension4Score,
      EPISTEMIC_CAP, min_def, max_def]

theorem analyze_doc_eq (incidents : Registry) (text : String)
    (context : Context) (h : isDocumentation text = true) :
    analyze incidents text context =
      .ok { violations := [], warnings := [], commendations := [docCommendation]
            hasViolations := false, hasCritical := false } := by
  unfold analyze
  rw [h]
  rfl

/-- C3: for every text matching the documentation-exemption classifier,
every registry (even one whose rule records are malformed) and every
context, `analyze` returns zero violations, zero warnings and exactly
one `DOCUMENTATION` commendation: the exemption short-circuits before
any rule or heuristic check runs. -/
theorem analyze_documentation_short_circuit (incidents : Registry)
    (text : String) (context : Context) (h : isDocumentation text = true) :
    analyze incidents text context =
      .ok { violations := [], warnings := [], commendations := [docCommendation]
            hasViolations := false, hasCritical := false } :=
  analyze_doc_eq incidents text context h

/-- Witness for C3: the text `"THE LAW"` is documentation-exempt, and
even over a registry whose `issue-43` record is malformed (which would
otherwise throw) and a workflow-file context, `analyze` returns only
the `DOCUMENTATION` commendation. -/
theorem analyze_documentation_short_circuit_witness :
    isDocumentation "see THE LAW: never use node:20-alpine" = true ∧
    analyze
      [("issue-43",
        { id := "issue-43", textPatterns := none
          financialImpact := { min := 2500000, max := 6000000, proven := true } })]
      "see THE LAW: never use node:20-alpine"
      { file := some ".github/workflows/deploy.yml" } =
      .ok { violations := [], warnings := [], commendations := [docCommendation]
            hasViolations := false, hasCritical := false } :=
  ⟨by rfl, analyze_documentation_short_circuit _ _ _ (by rfl)⟩

/-- The finding types that only registry-guarded (rule-backed) checks
can emit (spec 4.2 step 4: security-control removal, disallowed
infrastructure component, theming contract, base-image family,
platform flag, hard-coded data, directory traversal before VCS). -/
def ruleBackedTypes : List String :=
  ["SECURITY_CONTROL_REMOVAL", "NO_NGINX_LAW", "MISSING_THEME_SYSTEM",
   "ALPINE_BASE_IMAGE", "DOCKER_AMD64_PLATFORM", "HARDCODED_LIVE_DATA",
   "GIT_DIRECTORY_BREAKOUT"]

def resultViolations : Except Unit Results → List Violation
  | .ok r => r.violations
  | .error _ => []

def resultWarnings : Except Unit Results → List Warning
  | .ok r => r.warnings
  | .error _ => []

def exceptOk {ε α : Type} : Except ε α → Bool
  | .ok _ => true
  | .error _ => false

theorem check43_absent (reg : Registry) (text : String) (context : Context)
    (h : List.lookup "issue-43" reg = none) :
    checkIssue43Pattern reg text context = .ok [] := by
  unfold checkIssue43Pattern
  rw [h]

theorem check32_absent (reg : Registry) (text : String) (context : Context)
    (h : List.lookup "issue-32" reg = none) :
    checkIssue32Pattern reg text context = .ok [] := by
  unfold checkIssue32Pattern
  rw [h]

theorem theme_absent (reg : Registry) (text : String) (context : Context)
    (h : List.lookup "dayman-nightman-theme" reg = none) :
    checkDaymanNightmanTheme reg text context = [] := by
  unfold checkDaymanNightmanTheme
  rw [h]

theorem alpine_absent (reg : Registry) (text : String) (context : Context)
    (h : List.lookup "alpine-base-image" reg = none) :
    checkAlpineBaseImagePattern reg text context = .ok [] := by
  unfold checkAlpineBaseImagePattern
  rw [h]

theorem docker_absent (reg : Registry) (text : String) (context : Context)
    (h : List.lookup "docker-amd64-platform" reg = none) :
    checkDockerAmd64PlatformPattern reg text context = .ok [] := by
  unfold checkDockerAmd64PlatformPattern
  rw [h]

theorem livedata_absent (reg : Registry) (text : String) (context : Context)
    (h : List.lookup "live-data-law" reg = none) :
    checkLiveDataLawPattern reg text context = .ok [] := by
  unfold checkLiveDataLawPattern
  rw [h]

theorem gitbreakout_absent (reg : Registry) (text : String) (context : Context)
    (h : List.lookup "git-directory-breakout" reg = none) :
    checkGitDirectoryBreakout reg text context = [] := by
  unfold checkGitDirectoryBreakout
  rw [h]

theorem except_bind_ok {ε α β : Type} (a : α) (f : α → Except ε β) :
    (Except.ok a >>= f : Except ε β) = f a := rfl

/-- On the empty registry, a non-documentation pass reduces to the
heuristic checks alone. -/
theorem analyze_empty_registry (text : String) (context : Context)
    (h : isDocumentation text = false) :
    analyze [] text context = .ok (getResults
      (checkEnterpriseSprawl text context (isInvestorMaterials text))
      (checkIssue41Pattern text context ++
        checkCostEfficiency text context (isInvestorMaterials text))
      ((if isInvestorMaterials text then [investorCommendation] else []) ++
        checkCommendations text)) := by
  unfold analyze
  rw [h]
  simp only [Bool.false_eq_true, if_false]
  rw [check43_absent [] text context rfl, check32_absent [] text context rfl,
    theme_absent [] text context rfl, alpine_absent [] text context rfl,
    docker_absent [] text context rfl, livedata_absent [] text context rfl,
    gitbreakout_absent [] text context rfl]
  unfold checkHardcodedData
  rw [livedata_absent [] text context rfl]
  simp only [except_bind_ok]
  simp [getResults]

theorem sprawl_violation_types (text : String) (context : Context) (b : Bool) :
    ∀ v ∈ checkEnterpriseSprawl text context b,
      v.type = "ENTERPRISE_SPRAWL" ∧ v.severity = "CRITICAL" := by
  intro v hv
  unfold checkEnterpriseSprawl at hv
  simp only [List.mem_map] at hv
  obtain ⟨cat, _, rfl⟩ := hv
  exact ⟨rfl, rfl⟩

theorem issue41_warning_types (text : String) (context : Context) :
    ∀ w ∈ checkIssue41Pattern text context, w.type = "UNTESTED_DEPLOY" := by
  intro w hw
  unfold checkIssue41Pattern at hw
  dsimp only at hw
  split_ifs at hw
  · rw [List.mem_singleton] at hw
    subst hw
    rfl
  · exact absurd hw (List.not_mem_nil w)
  · exact absurd hw (List.not_mem_nil w)

theorem cost_warning_types (text : String) (context : Context) (b : Bool) :
    ∀ w ∈ checkCostEfficiency text context b, w.type = "COST_INEFFICIENCY" := by
  intro w hw
  unfold checkCostEfficiency at hw
  dsimp only at hw
  split_ifs at hw
  · exact absurd hw (List.not_mem_nil w)
  · rw [List.mem_singleton] at hw
    subst hw
    rfl
  · exact absurd hw (List.not_mem_nil w)

/-- C4: a rule-backed check whose rule identifier is absent from the
active rule set emits no finding; in particular, on the empty registry
`analyze` completes without throwing and emits no rule-backed violation
or warning for any text and any context. -/
theorem rule_absent_no_finding :
    (∀ reg text context, List.lookup "issue-43" reg = none →
      checkIssue43Pattern reg text context = .ok []) ∧
    (∀ reg text context, List.lookup "issue-32" reg = none →
      checkIssue32Pattern reg text context = .ok []) ∧
    (∀ reg text context, List.lookup "dayman-nightman-theme" reg = none →
      checkDaymanNightmanTheme reg text context = []) ∧
    (∀ reg text context, List.lookup "alpine-base-image" reg = none →
      checkAlpineBaseImagePattern reg text context = .ok []) ∧
    (∀ reg text context, List.lookup "docker-amd64-platform" reg = none →
      checkDockerAmd64PlatformPattern reg text context = .ok []) ∧
    (∀ reg text context, List.lookup "live-data-law" reg = none →
      checkLiveDataLawPattern reg text context = .ok []) ∧
    (∀ reg text context, List.lookup "git-directory-breakout" reg = none →
      checkGitDirectoryBreakout reg text context = []) ∧
    (∀ text context,
      exceptOk (analyze [] text context) = true ∧
      (∀ v ∈ resultViolations (analyze [] text context),
        v.type ∉ ruleBackedTypes) ∧
      (∀ w ∈ resultWarnings (analyze [] text context),
        w.type ∉ ruleBackedTypes)) := by
  refine ⟨check43_absent, check32_absent, theme_absent, alpine_absent,
    docker_absent, livedata_absent, gitbreakout_absent, ?_⟩
  intro text context
  cases hdoc : isDocumentation text with
  | true =>
    rw [analyze_doc_eq [] text context hdoc]
    refine ⟨rfl, ?_, ?_⟩
    · intro v hv
      exact absurd hv (List.not_mem_nil v)
    · intro w hw
      exact absurd hw (List.not_mem_nil w)
  | false =>
    rw [analyze_empty_registry text context hdoc]
    refine ⟨rfl, ?_, ?_⟩
    · intro v hv
      simp only [resultViolations, getResults] at hv
      have := (sprawl_violation_types text context (isInvestorMaterials text)
        v hv).1
      rw [this]
      decide
    · intro w hw
      simp only [resultWarnings, getResults, List.mem_append] at hw
      rcases hw with hw | hw
      · rw [issue41_warning_types text context w hw]
        decide
      · rw [cost_warning_types text context (isInvestorMaterials text) w hw]
        decide

/-- Witness for C4: on the empty registry every rule-backed check skips,
and a non-documentation pass over a workflow-file context completes
without any rule-backed finding. -/
theorem rule_absent_no_finding_witness :
    checkIssue43Pattern [] "remove the security scan" { file := none } = .ok [] ∧
    checkIssue32Pattern [] "install nginx" { file := none } = .ok [] ∧
    checkDaymanNightmanTheme [] "<html></html>"
      { file := some "/public/index.html" } = [] ∧
    checkAlpineBaseImagePattern [] "FROM node:20-alpine" { file := none } = .ok [] ∧
    checkDockerAmd64PlatformPattern [] "docker build -t x ." { file := none } = .ok [] ∧
    checkLiveDataLawPattern [] "<title>v5.2.21</title>"
      { file := some "a.html" } = .ok [] ∧
    checkGitDirectoryBreakout [] "cd ../.. && git add -A" { file := none } = [] ∧
    exceptOk (analyze [] "docker build -t x ."
      { file := some ".github/workflows/deploy.yml" }) = true :=
  ⟨rule_absent_no_finding.1 [] _ _ rfl,
   rule_absent_no_finding.2.1 [] _ _ rfl,
   rule_absent_no_finding.2.2.1 [] _ _ rfl,
   rule_absent_no_finding.2.2.2.1 [] _ _ rfl,
   rule_absent_no_finding.2.2.2.2.1 [] _ _ rfl,
   rule_absent_no_finding.2.2.2.2.2.1 [] _ _ rfl,
   rule_absent_no_finding.2.2.2.2.2.2.1 [] _ _ rfl,
   (rule_absent_no_finding.2.2.2.2.2.2.2 "docker build -t x ."
     { file := some ".github/workflows/deploy.yml" }).1⟩

/-- A registry record whose `pattern.detection.textPatterns` chain is
missing. -/
def malformedIssue43 : Incident :=
  { id := "issue-43", textPatterns := none
    financialImpact := { min := 2500000, max := 6000000, proven := true } }

/-- Counterexample to C5: with the `issue-43` rule present but lacking
its pattern list, `analyze` on a plain text throws (the property access
`incident.pattern.detection.textPatterns` raises a `TypeError`), so a
malformed rule is NOT treated as absent and the pass does not complete
normally. -/
theorem analyze_malformed_rule_throws_cex :
    analyze [("issue-43", malformedIssue43)] "update the gateway config"
      { file := none } = .error () := by
  rfl

/-- C5 (amended): a rule identifier absent from the active set makes
the check emit nothing, but a malformed rule record that is present
(missing `pattern.detection.textPatterns`) makes `analyze` throw a
`TypeError` and abort the pass instead of being skipped. -/
theorem malformed_rule_throws :
    (∀ reg text context, List.lookup "issue-43" reg = none →
      checkIssue43Pattern reg text context = .ok []) ∧
    (∀ reg inc text context, List.lookup "issue-43" reg = some inc →
      inc.textPatterns = none → isDocumentation text = false →
      analyze reg text context = .error ()) := by
  refine ⟨check43_absent, ?_⟩
  intro reg inc text context hlk hpat hdoc
  unfold analyze
  rw [hdoc]
  simp only [Bool.false_eq_true, if_false]
  have h43 : checkIssue43Pattern reg text context = .error () := by
    unfold checkIssue43Pattern
    rw [hlk]
    dsimp only
    rw [hpat]
  rw [h43]
  rfl

/-- Witness for the amended C5. -/
theorem malformed_rule_throws_witness :
    checkIssue43Pattern [] "update the gateway config" { file := none } = .ok [] ∧
    analyze [("issue-43", malformedIssue43)] "update the gateway config"
      { file := none } = .error () :=
  ⟨malformed_rule_throws.1 [] _ _ rfl,
   malformed_rule_throws.2 _ malformedIssue43 _ _ rfl rfl rfl⟩

theorem sendEventsGo_attempts_le (net : Nat → Bool) :
    ∀ remaining attempt,
      (sendEventsGo net remaining attempt).attempts ≤ attempt + remaining := by
  intro remaining
  induction remaining with
  | zero =>
    intro attempt
    unfold sendEventsGo
    split_ifs <;> simp
  | succ r ih =>
    intro attempt
    unfold sendEventsGo
    split_ifs with h
    · simp
    · dsimp only
      have := ih (attempt + 1)
      omega

/-- C6: on repeated failure `sendEvents` makes exactly 3 total
attempts, sleeping the strictly increasing exponential backoff delays
1000ms then 2000ms between them, then drops the events and returns
normally; in general at most 3 attempts are made, and the caller's
analysis results are unchanged by the detached send. -/
theorem sendEvents_retry_spec :
    (∀ (α : Type) (events : List α) (net : Nat → Bool),
      events ≠ [] → (∀ a, net a = false) →
      sendEvents true events net =
        { attempts := 3, delays := [1000, 2000], delivered := false }) ∧
    List.Chain' (fun a b => a < b) [1000, 2000] ∧
    (∀ (α : Type) (enabled : Bool) (events : List α) (net : Nat → Bool),
      (sendEvents enabled events net).attempts ≤ 3) ∧
    (∀ (α : Type) (results : Results) (enabled : Bool) (events : List α)
        (net : Nat → Bool),
      reviewOutcome results enabled events net = results) := by
  refine ⟨?_, ?_, ?_, ?_⟩
  · intro α events net hne hnet
    have he : events.isEmpty = false := by
      simpa [List.isEmpty_iff] using hne
    unfold sendEvents
    rw [he]
    norm_num [sendEventsGo, hnet, retryDelay, retryAttempts]
  · norm_num [List.chain'_cons, List.chain'_singleton]
  · intro α enabled events net
    unfold sendEvents
    split_ifs with h
    · simp
    · have := sendEventsGo_attempts_le net (retryAttempts - 1) 1
      simpa [retryAttempts] using this
  · intro α results enabled events net
    rfl

/-- Witness for C6: one event, a network that always fails. -/
theorem sendEvents_retry_spec_witness :
    sendEvents true [()] (fun _ => false) =
      { attempts := 3, delays := [1000, 2000], delivered := false } :=
  sendEvents_retry_spec.1 Unit [()] (fun _ => false) (by simp) (fun _ => rfl)

/-- A well-formed registry record, used as the previously loaded set. -/
def sampleIncident : Incident :=
  { id := "issue-43", textPatterns := some []
    financialImpact := { min := 0, max := 0, proven := false } }

/-- Counterexample to C7: when the remote source yields nothing and the
local directory is unreadable (a total load failure), the previously
loaded non-empty rule set is NOT retained: `this.incidents` is reset to
the empty set by the catch branch. -/
theorem load_failure_not_retained_cex :
    loadIncidentPatterns true [] (.error ())
      (some [("issue-43", sampleIncident)]) = (some [], false) ∧
    some ([] : Registry) ≠ some [("issue-43", sampleIncident)] := by
  refine ⟨rfl, ?_⟩
  intro h
  simp at h

/-- C7 (amended): a load never merges with or depends on the previous
set — on success the active set is replaced wholesale by the remote set
(when enabled and non-empty) or by a local set built from scratch; but
on total failure (unreadable directory, or any local parse failure) the
previous set is not retained: the active set is reset to empty and the
load reports failure. -/
theorem load_replaces_wholesale :
    (∀ enabled live dir p p2,
      loadIncidentPatterns enabled live dir p =
        loadIncidentPatterns enabled live dir p2) ∧
    (∀ live dir p, live ≠ [] →
      loadIncidentPatterns true live dir p = (some live, true)) ∧
    (∀ enabled live p, enabled = false ∨ live = [] →
      loadIncidentPatterns enabled live (.error ()) p = (some [], false)) ∧
    (∀ enabled live p files built, enabled = false ∨ live = [] →
      loadLocalFiles files [] = some built →
      loadIncidentPatterns enabled live (.ok files) p = (some built, true)) ∧
    (∀ enabled live p files, enabled = false ∨ live = [] →
      loadLocalFiles files [] = none →
      loadIncidentPatterns enabled live (.ok files) p = (some [], false)) := by
  have hcond : ∀ (enabled : Bool) (live : Registry),
      enabled = false ∨ live = [] → (enabled && !live.isEmpty) = false := by
    rintro enabled live (rfl | rfl) <;> simp
  refine ⟨?_, ?_, ?_, ?_, ?_⟩
  · intro enabled live dir p p2
    rfl
  · intro live dir p h
    have he : live.isEmpty = false := by simpa [List.isEmpty_iff] using h
    unfold loadIncidentPatterns
    rw [he]
    rfl
  · intro enabled live p h
    unfold loadIncidentPatterns
    rw [hcond enabled live h]
    rfl
  · intro enabled live p files built h hl
    unfold loadIncidentPatterns
    rw [hcond enabled live h]
    simp only [Bool.false_eq_true, if_false]
    rw [hl]
  · intro enabled live p files h hl
    unfold loadIncidentPatterns
    rw [hcond enabled live h]
    simp only [Bool.false_eq_true, if_false]
    rw [hl]

/-- Witness for the amended C7. -/
theorem load_replaces_wholesale_witness :
    loadIncidentPatterns true [("issue-43", sampleIncident)] (.error ()) none =
      (some [("issue-43", sampleIncident)], true) ∧
    loadIncidentPatterns true [] (.error ())
      (some [("issue-43", sampleIncident)]) = (some [], false) ∧
    loadIncidentPatterns false [] (.ok [.ok sampleIncident]) none =
      (some [("issue-43", sampleIncident)], true) ∧
    loadIncidentPatterns false [] (.ok [.error ()]) none = (some [], false) ∧
    loadIncidentPatterns true [] (.error ()) none =
      loadIncidentPatterns true [] (.error ()) (some [("issue-43", sampleIncident)]) :=
  ⟨load_replaces_wholesale.2.1 _ _ none (by simp),
   load_replaces_wholesale.2.2.1 true [] _ (Or.inr rfl),
   load_replaces_wholesale.2.2.2.1 false [] none _ _ (Or.inl rfl) rfl,
   load_replaces_wholesale.2.2.2.2 false [] none _ (Or.inl rfl) rfl,
   load_replaces_wholesale.1 true [] (.error ()) none
     (some [("issue-43", sampleIncident)])⟩

/-- C9: the outcome of `analyze` on a detector instance depends only on
the loaded registry and the call's `(text, context)` — the per-call
result arrays are reset at the start of each pass, so no findings carry
over — and a second call on the same instance with the same inputs and
unchanged registry returns the identical finding sets and leaves the
instance state fixed. -/
theorem analyze_idempotent :
    (∀ load load2 (s s2 : DetectorState) reg text context,
      s.incidents = some reg → s2.incidents = some reg →
      analyzeInstance load s text context =
        analyzeInstance load2 s2 text context) ∧
    (∀ load (s : DetectorState) text context res s1,
      analyzeInstance load s text context = .ok (res, s1) →
      analyzeInstance load s1 text context = .ok (res, s1)) := by
  constructor
  · intro load load2 s s2 reg text context h1 h2
    unfold analyzeInstance
    rw [h1, h2]
  · intro load s text context res s1 h
    unfold analyzeInstance at h ⊢
    dsimp only at h ⊢
    cases han : analyze (match s.incidents with | some r => r | none => load)
        text context with
    | error e =>
      rw [han] at h
      simp [Except.map] at h
    | ok val =>
      rw [han] at h
      simp only [Except.map] at h
      injection h with h2
      rw [Prod.mk.injEq] at h2
      obtain ⟨hres, hs1⟩ := h2
      subst hres
      subst hs1
      dsimp only
      rw [han]
      simp [Except.map]

/-- Witness for C9: two instances sharing the loaded empty registry —
one with junk findings left in its arrays — produce identical outcomes,
and re-running the call on the resulting state reproduces it. -/
theorem analyze_idempotent_witness :
    analyzeInstance []
        { violations := [mkSprawlViolation "X" { file := none }]
          warnings := [], commendations := [], incidents := some [] }
        "hi" { file := none } =
      analyzeInstance []
        { violations := [], warnings := [], commendations := []
          incidents := some [] } "hi" { file := none } ∧
    analyzeInstance []
        { violations := [], warnings := [], commendations := []
          incidents := some [] } "hi" { file := none } =
      .ok ({ violations := [], warnings := [], commendations := []
             hasViolations := false, hasCritical := false },
           { violations := [], warnings := [], commendations := []
             incidents := some [] }) :=
  ⟨analyze_idempotent.1 [] [] _ _ [] "hi" { file := none } rfl rfl,
   analyze_idempotent.2 []
     { violations := [], warnings := [], commendations := []
       incidents := some [] } "hi" { file := none } _ _ (by rfl)⟩

/-- C10: the infrastructure-keyword heuristic emits one CRITICAL
`ENTERPRISE_SPRAWL` violation per matching category of its five fixed
categories (no first-match short-circuit, so up to five per call), does
no registry lookup (on the empty registry a non-documentation pass
emits exactly these violations), and is unaffected by the
investor-materials flag it receives. -/
theorem enterprise_sprawl_heuristic :
    (∀ text context b,
      (checkEnterpriseSprawl text context b).length =
        (enterpriseSprawlCategories.filter
          (fun cat => reTestCI cat.2 text)).length) ∧
    (∀ text context b, (checkEnterpriseSprawl text context b).length ≤ 5) ∧
    (∀ text context b, ∀ v ∈ checkEnterpriseSprawl text context b,
      v.type = "ENTERPRISE_SPRAWL" ∧ v.severity = "CRITICAL") ∧
    (∀ text context b b2,
      checkEnterpriseSprawl text context b =
        checkEnterpriseSprawl text context b2) ∧
    (∀ text context, isDocumentation text = false →
      resultViolations (analyze [] text context) =
        checkEnterpriseSprawl text context (isInvestorMaterials text)) := by
  refine ⟨?_, ?_, sprawl_violation_types, ?_, ?_⟩
  · intro text context b
    unfold checkEnterpriseSprawl
    rw [List.length_map]
  · intro text context b
    unfold checkEnterpriseSprawl
    rw [List.length_map]
    exact List.length_filter_le _ _
  · intro text context b b2
    rfl
  · intro text context h
    rw [analyze_empty_registry text context h]
    rfl

/-- Witness for C10: an investor-materials text matching three of the
five categories yields exactly three sprawl violations on the empty
registry. -/
theorem enterprise_sprawl_heuristic_witness :
    isDocumentation "ARR private link azure firewall ddos protection standard"
      = false ∧
    isInvestorMaterials
      "ARR private link azure firewall ddos protection standard" = true ∧
    resultViolations (analyze []
        "ARR private link azure firewall ddos protection standard"
        { file := none }) =
      checkEnterpriseSprawl
        "ARR private link azure firewall ddos protection standard"
        { file := none }
        (isInvestorMaterials
          "ARR private link azure firewall ddos protection standard") ∧
    (checkEnterpriseSprawl
      "ARR private link azure firewall ddos protection standard"
      { file := none } true).length = 3 :=
  ⟨rfl, rfl,
   enterprise_sprawl_heuristic.2.2.2.2
     "ARR private link azure firewall ddos protection standard"
     { file := none } rfl,
   by decide⟩

end FiveD
